import Mathlib

/-!
Shallow embedding of the battery-aware AI task scheduler
(`src/battery_scheduler/predictor.py`, `src/battery_scheduler/scheduler.py`).
Python floats are modelled as rationals, Python `None` as `Option`,
Python dicts holding fixed keys as structures.
-/

namespace BatteryScheduler

/-- Caller-supplied task description (`task_description` dict). -/
structure TaskDescription where
  compute_ops : ℚ
  memory_mb : ℚ
  duration_seconds : ℚ
deriving DecidableEq

/-- Battery state as returned by `BatteryPredictor._get_current_battery_state`:
both branches of that function populate all three keys, with `time_left`
possibly `None`. -/
structure BatteryState where
  percent : ℚ
  plugged_in : Bool
  time_left : Option ℚ
deriving DecidableEq

/-- The prediction dict returned by `BatteryPredictor.predict_drain`. -/
structure Prediction where
  estimated_drain_percent : ℚ
  estimated_time_minutes : ℚ
  current_battery_percent : ℚ
  safe_to_execute : Bool
deriving DecidableEq

/-- Python truthiness of an optional float: `None` and `0.0` are falsy. -/
def truthyOpt : Option ℚ → Bool
  | none => false
  | some v => decide (v ≠ 0)

/-- `BatteryPredictor._extract_features`: the four-component feature vector
(compute intensity, memory usage, duration, hour-of-day fraction). -/
def extract_features (hour : ℕ) (d : TaskDescription) : ℚ × ℚ × ℚ × ℚ :=
  (d.compute_ops / 1000000000, d.memory_mb / 1000, d.duration_seconds,
    (hour : ℚ) / 24)

/-- `BatteryPredictor._run_prediction`: base drain is the sum of the first
three features times 0.5, halved when plugged in, scaled by 1.2 when the
battery percent is below 20, and capped above by `min(base_drain, 10.0)`. -/
def run_prediction (f : ℚ × ℚ × ℚ × ℚ) (st : BatteryState) : ℚ :=
  let base0 := (f.1 + f.2.1 + f.2.2.1) * (1 / 2)
  let base1 := if st.plugged_in then base0 * (1 / 2) else base0
  let base2 := if st.percent < 20 then base1 * (6 / 5) else base1
  min base2 10

/-- `BatteryPredictor._estimate_time_impact`: `time_left` is tested for
Python truthiness together with `current_percent > 0`. -/
def estimate_time_impact (drain : ℚ) (st : BatteryState) : ℚ :=
  if truthyOpt st.time_left ∧ 0 < st.percent then
    drain * ((st.time_left.getD 0) / st.percent) / 60
  else
    drain * 5

/-- `BatteryPredictor._is_safe_to_execute` with the configured
`power.battery_threshold_percent` (default 20) made explicit. -/
def is_safe_to_execute (threshold : ℚ) (drain : ℚ) (st : BatteryState) : Bool :=
  if st.plugged_in then true
  else if st.percent - drain < threshold then false
  else true

/-- `BatteryPredictor.predict_drain`, with the clock (hour of day) and the
configured threshold passed explicitly. -/
def predict_drain (threshold : ℚ) (hour : ℕ) (d : TaskDescription)
    (st : BatteryState) : Prediction :=
  let drain := run_prediction (extract_features hour d) st
  { estimated_drain_percent := drain
    estimated_time_minutes := estimate_time_impact drain st
    current_battery_percent := st.percent
    safe_to_execute := is_safe_to_execute threshold drain st }

/-- The task dict built by `AIScheduler.schedule`; the callable `func` is
modelled by an identity token `funcRef`, the timestamp fields are dropped. -/
structure TaskObj where
  id : String
  funcRef : ℕ
  priority : ℤ
  should_execute : Bool
  reason : String
deriving DecidableEq

/-- `AIScheduler.schedule`: `task_id = f"task_{int(time.time() * 1000)}"`. -/
def mkTaskId (nowMs : ℤ) : String :=
  "task_" ++ toString nowMs

/-- `AIScheduler._apply_scheduling_rules`: the thermal reading
`not self.power_monitor.is_thermal_throttling()` is passed as a Bool. -/
def apply_scheduling_rules (prediction : Prediction) (priority : String)
    (thermalThrottling : Bool) : Bool × String :=
  if prediction.current_battery_percent < 20 ∧ priority ≠ "critical" then
    (false, "Battery below threshold")
  else if prediction.safe_to_execute = false ∧ priority ≠ "critical" then
    (false, "Predicted drain too high")
  else if thermalThrottling = true ∧ priority ≠ "critical" then
    (false, "Thermal throttling detected")
  else if priority = "critical" then
    (true, "Critical priority overrides constraints")
  else
    (true, "All checks passed")

/-- `AIScheduler._calculate_priority`: class map with default 50, minus 5
when the prediction is safe. -/
def calculate_priority (priority_str : String) (prediction : Prediction) : ℤ :=
  let base : ℤ :=
    if priority_str = "critical" then 0
    else if priority_str = "high" then 10
    else if priority_str = "normal" then 50
    else if priority_str = "low" then 100
    else 50
  if prediction.safe_to_execute then base - 5 else base

/-- The `(priority_value, task)` pair that `AIScheduler.schedule` inserts
into the queue for a submission arriving at wallclock millisecond `nowMs`. -/
def scheduleEntry (nowMs : ℤ) (funcRef : ℕ) (priority_str : String)
    (prediction : Prediction) (thermalThrottling : Bool) : ℤ × TaskObj :=
  let sr := apply_scheduling_rules prediction priority_str thermalThrottling
  let pv := calculate_priority priority_str prediction
  (pv, { id := mkTaskId nowMs, funcRef := funcRef, priority := pv,
         should_execute := sr.1, reason := sr.2 })

/-- `AIScheduler._should_retry`: `task.get('priority', 100) < 50`
(the key is always present on tasks built by `schedule`). -/
def should_retry (task : TaskObj) : Bool :=
  decide (task.priority < 50)

/-! ### The underlying `queue.PriorityQueue` / `heapq` on `(int, dict)` pairs

`PriorityQueue.put` pushes onto a `heapq` binary heap.  CPython compares two
tuples by scanning for the first index whose items are not equal (`==`) and
applying `<` there; two task dicts support `==` but not `<`, so a comparison
that falls through to the dict components raises `TypeError`.  The fallible
comparison is modelled in `Except`, with `Except.error ()` standing for the
raised `TypeError`. -/

/-- CPython `<` on a `(priority_value, task_dict)` heap entry. -/
def pyLtEntry (a b : ℤ × TaskObj) : Except Unit Bool :=
  if a.1 = b.1 then
    if a.2 = b.2 then Except.ok false else Except.error ()
  else
    Except.ok (decide (a.1 < b.1))

/-- `heapq._siftdown(heap, 0, pos)`: walk the new item towards the root while
it compares strictly below its parent.  The walk strictly decreases `pos`
(each step moves to `(pos - 1) / 2`), so a structural fuel of `pos` steps is
enough; the fuel-exhausted case is reached only with `pos = 0`, where the
loop body would also exit immediately and store the item at the root. -/
def siftdownLoop (newitem : ℤ × TaskObj) :
    ℕ → List (ℤ × TaskObj) → ℕ → Except Unit (List (ℤ × TaskObj))
  | 0, heap, pos => Except.ok (heap.set pos newitem)
  | fuel + 1, heap, pos =>
    if pos = 0 then
      Except.ok (heap.set 0 newitem)
    else
      let parentpos := (pos - 1) / 2
      let parent := heap.getD parentpos newitem
      match pyLtEntry newitem parent with
      | Except.error e => Except.error e
      | Except.ok true => siftdownLoop newitem fuel (heap.set pos parent) parentpos
      | Except.ok false => Except.ok (heap.set pos newitem)

/-- `heapq._siftdown(heap, 0, pos)` on the entry `newitem`. -/
def siftdown (heap : List (ℤ × TaskObj)) (pos : ℕ) (newitem : ℤ × TaskObj) :
    Except Unit (List (ℤ × TaskObj)) :=
  siftdownLoop newitem pos heap pos

/-- `heapq.heappush`: append the item, then sift it down from the last slot. -/
def heappush (heap : List (ℤ × TaskObj)) (item : ℤ × TaskObj) :
    Except Unit (List (ℤ × TaskObj)) :=
  siftdown (heap ++ [item]) heap.length item

/-! ### The scheduler loop (`AIScheduler._scheduler_loop`)

The loop repeatedly extracts the minimum-priority queue entry, executes the
task when its stored `should_execute` flag is set (invoking `func` inside a
`try`/`except` and recording the observed drain), and otherwise re-inserts
the entry with queue key `priority + 1` exactly when `_should_retry` holds.
The queue is modelled as a list of `(priority, task)` entries with a
minimum-extraction function; tasks are referenced through an immutable
environment `tasks : ℕ → TaskObj`. -/

/-- Extract the first entry with minimal priority value, as
`PriorityQueue.get` does. -/
def popMin : List (ℤ × ℕ) → Option ((ℤ × ℕ) × List (ℤ × ℕ))
  | [] => none
  | e :: es =>
    match popMin es with
    | none => some (e, [])
    | some (m, rest) =>
      if e.1 ≤ m.1 then some (e, es) else some (m, e :: rest)

/-- `actual_drain = battery_before - battery_after if battery_before and
battery_after else 0` — note Python truthiness, not an availability test. -/
def pyDrain (before after : Option ℚ) : ℚ :=
  if truthyOpt before ∧ truthyOpt after then
    before.getD 0 - after.getD 0
  else
    0

/-- Environment inputs consumed by one loop iteration: whether the user task
body raises, and the two battery readings around the execution. -/
structure LoopInput where
  fnRaises : Bool
  batteryBefore : Option ℚ
  batteryAfter : Option ℚ

/-- Scheduler-loop state: the pending queue, how many times each task's
`func` has been invoked, and the predictor's `record_actual_drain` history. -/
structure SchedState where
  queue : List (ℤ × ℕ)
  execCount : ℕ → ℕ
  history : List (ℕ × ℚ)

/-- One pass of the body of `AIScheduler._scheduler_loop`: pop the minimum
entry; if `task['should_execute']`, run `_execute_task` (the `func` call is
wrapped in `try`/`except`, so the state update is the same whether or not
`inp.fnRaises`); otherwise re-enqueue at `priority + 1` exactly when
`_should_retry(task)`. -/
def schedulerStep (tasks : ℕ → TaskObj) (inp : LoopInput)
    (st : SchedState) : SchedState :=
  match popMin st.queue with
  | none => st
  | some ((p, t), rest) =>
    if (tasks t).should_execute then
      { queue := rest
        execCount := fun u => if u = t then st.execCount u + 1 else st.execCount u
        history := st.history ++ [(t, pyDrain inp.batteryBefore inp.batteryAfter)] }
    else if should_retry (tasks t) then
      { st with queue := rest ++ [(p + 1, t)] }
    else
      { st with queue := rest }

/-- A loop step with some environment input. -/
def SchedStep (tasks : ℕ → TaskObj) (st st' : SchedState) : Prop :=
  ∃ inp : LoopInput, st' = schedulerStep tasks inp st

/-- States reachable by the loop. -/
def SchedReachable (tasks : ℕ → TaskObj) : SchedState → SchedState → Prop :=
  Relation.ReflTransGen (SchedStep tasks)

/-- Queue/execution accounting invariant: each task object is either still
pending in at most one queue entry or has been executed at most once. -/
def ExecInv (st : SchedState) : Prop :=
  ∀ t : ℕ, (st.queue.map Prod.snd).count t + st.execCount t ≤ 1

/-! ### Sample values used in concrete evaluations -/

/-- A prediction for a healthy battery with a safe verdict. -/
def predSafe80 : Prediction :=
  { estimated_drain_percent := 1, estimated_time_minutes := 5,
    current_battery_percent := 80, safe_to_execute := true }

/-- A prediction for a healthy battery with an unsafe verdict. -/
def predUnsafe80 : Prediction :=
  { estimated_drain_percent := 9, estimated_time_minutes := 45,
    current_battery_percent := 80, safe_to_execute := false }

/-- A task description with a negative `compute_ops` estimate. -/
def descNegOps : TaskDescription :=
  { compute_ops := -2000000000, memory_mb := 0, duration_seconds := 0 }

/-- An unplugged battery state at 80 percent. -/
def state80 : BatteryState :=
  { percent := 80, plugged_in := false, time_left := some 7200 }

end BatteryScheduler

namespace BatteryScheduler

/-! ## Claims -/

/-- C1: the claim says every `submit()` call returns a task id distinct from
every other call's, even for calls close together, and that the queue never
holds two entries with the same id.  The code derives the id from the
wallclock millisecond, so two submissions landing in the same millisecond
(here 1700000000000) return the same id and the queue then holds two
distinct entries carrying one id. -/
theorem submit_same_millisecond_duplicates_id :
    (scheduleEntry 1700000000000 1 "normal" predSafe80 false).2.id =
      (scheduleEntry 1700000000000 2 "normal" predSafe80 false).2.id ∧
    (scheduleEntry 1700000000000 1 "normal" predSafe80 false).2 ≠
      (scheduleEntry 1700000000000 2 "normal" predSafe80 false).2 := by
  decide

/-- C2: the claim says the queue entry carries a monotonically increasing
sequence number as secondary sort key, making equal-priority insertion
well-defined and FIFO.  The code puts bare `(priority_value, task_dict)`
pairs, so pushing a second entry with an equal priority value makes the heap
comparison fall through to `dict < dict`, which raises `TypeError`
(modelled as `Except.error ()`). -/
theorem equal_priority_push_raises_type_error :
    heappush [scheduleEntry 1700000000000 1 "normal" predSafe80 false]
      (scheduleEntry 1700000000001 2 "normal" predSafe80 false) =
      Except.error () := by
  rfl

/-- C3 counterexample: a Critical-class task with a safe prediction gets
`priorityValue = 0 - 5 = -5`, which is negative, refuting the claim that the
stored priority value is always a non-negative integer. -/
theorem critical_safe_priority_is_negative :
    calculate_priority "critical" predSafe80 = -5 ∧
    ¬ (0 ≤ calculate_priority "critical" predSafe80) := by
  decide

/-- C3 amended: for every priority class string and every prediction the
computed priority value is at least −5, and it is negative exactly for a
Critical-class task whose prediction is safe. -/
theorem calculate_priority_lower_bound :
    ∀ (s : String) (p : Prediction),
      -5 ≤ calculate_priority s p ∧
      (calculate_priority s p < 0 ↔ s = "critical" ∧ p.safe_to_execute = true) := by
  intro s p
  unfold calculate_priority
  by_cases h1 : s = "critical" <;> by_cases h2 : p.safe_to_execute <;>
    simp [h1, h2] <;> split_ifs <;> omega

/-- C4 counterexample: a task description with negative `compute_ops`
yields a negative estimated drain (`min` only clamps from above), refuting
the claim that the drain always lies in `[0, 10]`. -/
theorem predict_drain_can_be_negative :
    (predict_drain 20 12 descNegOps state80).estimated_drain_percent < 0 := by
  norm_num [predict_drain, run_prediction, extract_features, descNegOps, state80]

/-- C4 amended: every prediction's estimated drain is at most 10, and it is
also non-negative whenever the task's feature sum
`computeOps/1e9 + memoryMB/1000 + durationSeconds` is non-negative (in
particular for all non-negative task descriptions); with a negative feature
sum the drain can be negative, as the lower clamp is missing. -/
theorem predict_drain_clamped :
    ∀ (th : ℚ) (hour : ℕ) (d : TaskDescription) (st : BatteryState),
      (predict_drain th hour d st).estimated_drain_percent ≤ 10 ∧
      (0 ≤ d.compute_ops / 1000000000 + d.memory_mb / 1000 + d.duration_seconds →
        0 ≤ (predict_drain th hour d st).estimated_drain_percent) := by
  intro th hour d st
  unfold predict_drain run_prediction extract_features
  simp only
  constructor
  · exact min_le_right _ _
  · intro hsum
    apply le_min _ (by norm_num)
    split_ifs <;> nlinarith

/-- C4 witness. -/
theorem predict_drain_clamped_witness :
    (predict_drain 20 12 (TaskDescription.mk 1000000000 100 1) state80).estimated_drain_percent ≤ 10 ∧
    0 ≤ (predict_drain 20 12 (TaskDescription.mk 1000000000 100 1) state80).estimated_drain_percent :=
  ⟨(predict_drain_clamped 20 12 (TaskDescription.mk 1000000000 100 1) state80).1,
    (predict_drain_clamped 20 12 (TaskDescription.mk 1000000000 100 1) state80).2 (by norm_num)⟩

/-- Helper: the stored priority value is below 50 exactly for Critical or
High class submissions, or for any non-Low class whose prediction got the
−5 safe bias. -/
theorem calculate_priority_lt_50_iff (s : String) (p : Prediction) :
    calculate_priority s p < 50 ↔
      s = "critical" ∨ s = "high" ∨ (s ≠ "low" ∧ p.safe_to_execute = true) := by
  unfold calculate_priority
  rcases eq_or_ne s "critical" with h1 | h1
  · subst h1
    by_cases hs : p.safe_to_execute <;> simp [hs]
  · rcases eq_or_ne s "high" with h2 | h2
    · subst h2
      by_cases hs : p.safe_to_execute <;> simp [hs]
    · rcases eq_or_ne s "normal" with h3 | h3
      · subst h3
        by_cases hs : p.safe_to_execute <;> simp [hs]
      · rcases eq_or_ne s "low" with h4 | h4
        · subst h4
          by_cases hs : p.safe_to_execute <;> simp [hs]
        · by_cases hs : p.safe_to_execute <;>
            simp [h1, h2, h3, h4, hs]

/-- C5 counterexample: a Normal-class task whose prediction is unsafe is
denied at submission with `priorityValue = 50`, so `_should_retry` is false
and the task is dropped — refuting the claim that the re-enqueue condition
`priorityValue < 50` coincides with the task being of Critical, High or
Normal tier. -/
theorem normal_tier_denied_task_dropped :
    (scheduleEntry 1700000000000 1 "normal" predUnsafe80 false).2.should_execute = false ∧
    (scheduleEntry 1700000000000 1 "normal" predUnsafe80 false).2.priority = 50 ∧
    should_retry (scheduleEntry 1700000000000 1 "normal" predUnsafe80 false).2 = false := by
  decide

/-- C5 amended: a dequeued non-admitted task is re-enqueued exactly when its
stored `priorityValue` is below 50, which holds iff the class is Critical or
High, or the class is not Low and the prediction was safe (so an unsafe
Normal-class task, at exactly 50, is dropped); each re-enqueue re-inserts
the entry with the queue key incremented by 1, leaving the stored task
fields (and execution counts) unchanged. -/
theorem deferred_retry_condition :
    (∀ (nowMs : ℤ) (fr : ℕ) (s : String) (p : Prediction) (th : Bool),
      should_retry (scheduleEntry nowMs fr s p th).2 = true ↔
        s = "critical" ∨ s = "high" ∨ (s ≠ "low" ∧ p.safe_to_execute = true)) ∧
    (∀ (tasks : ℕ → TaskObj) (inp : LoopInput) (st : SchedState)
      (q : ℤ) (t : ℕ) (rest : List (ℤ × ℕ)),
      popMin st.queue = some ((q, t), rest) →
      (tasks t).should_execute = false →
      should_retry (tasks t) = true →
      (schedulerStep tasks inp st).queue = rest ++ [(q + 1, t)] ∧
      ∀ u, (schedulerStep tasks inp st).execCount u = st.execCount u) := by
  constructor
  · intro nowMs fr s p th
    simp only [scheduleEntry, should_retry, decide_eq_true_eq]
    exact calculate_priority_lt_50_iff s p
  · intro tasks inp st q t rest hpop hexec hretry
    simp [schedulerStep, hpop, hexec, hretry]

/-- C5 witness. -/
theorem deferred_retry_condition_witness :
    (should_retry (scheduleEntry 0 1 "high" predUnsafe80 true).2 = true) ∧
    (schedulerStep (fun _ => (scheduleEntry 0 1 "high" predUnsafe80 true).2)
        (LoopInput.mk true none none)
        (SchedState.mk [(10, 0)] (fun _ => 0) [])).queue = [] ++ [(10 + 1, 0)] :=
  ⟨(deferred_retry_condition.1 0 1 "high" predUnsafe80 true).mpr (Or.inr (Or.inl rfl)),
    (deferred_retry_condition.2 (fun _ => (scheduleEntry 0 1 "high" predUnsafe80 true).2)
      (LoopInput.mk true none none)
      (SchedState.mk [(10, 0)] (fun _ => 0) []) 10 0 [] rfl (by decide) (by decide)).1⟩

/-- C6 counterexample: the reason string returned for an admitted Critical
task is capitalized "Critical priority overrides constraints", not the
claimed lowercase "critical priority overrides constraints". -/
theorem critical_reason_is_capitalized :
    (apply_scheduling_rules predSafe80 "critical" true).2 ≠
      "critical priority overrides constraints" := by
  decide

/-- C6 amended: for every prediction and every thermal status a
Critical-class submission is admitted with reason
"Critical priority overrides constraints"; under thermal throttling a
High-class submission whose prediction has battery ≥ 20 and a safe verdict
is denied with reason "Thermal throttling detected". -/
theorem critical_overrides_all_denials :
    (∀ (p : Prediction) (th : Bool),
      apply_scheduling_rules p "critical" th =
        (true, "Critical priority overrides constraints")) ∧
    (∀ p : Prediction, 20 ≤ p.current_battery_percent →
      p.safe_to_execute = true →
      apply_scheduling_rules p "high" true =
        (false, "Thermal throttling detected")) := by
  constructor
  · intro p th
    simp [apply_scheduling_rules]
  · intro p hb hs
    simp [apply_scheduling_rules, hs, not_lt.2 hb]

/-- C6 witness. -/
theorem critical_overrides_all_denials_witness :
    apply_scheduling_rules predSafe80 "critical" true =
      (true, "Critical priority overrides constraints") ∧
    apply_scheduling_rules predSafe80 "high" true =
      (false, "Thermal throttling detected") :=
  ⟨critical_overrides_all_denials.1 predSafe80 true,
    critical_overrides_all_denials.2 predSafe80 (by norm_num [predSafe80]) rfl⟩

/-- C7 counterexample: with the configured threshold at 50 and a task
description whose feature sum is negative, raising the battery percent from
19 to 20 drops the 1.2 low-battery scaling of a negative drain and turns a
safe prediction unsafe — refuting unconditional monotonicity of
`safeToExecute` in the battery percent. -/
theorem safe_to_execute_not_monotone :
    (predict_drain 50 12 (TaskDescription.mk (-52000000000) 0 0)
      (BatteryState.mk 19 false (some 7200))).safe_to_execute = true ∧
    (predict_drain 50 12 (TaskDescription.mk (-52000000000) 0 0)
      (BatteryState.mk 20 false (some 7200))).safe_to_execute = false ∧
    (19 : ℚ) ≤ 20 := by
  refine ⟨?_, ?_, by norm_num⟩ <;>
    norm_num [predict_drain, run_prediction, extract_features, is_safe_to_execute]

/-- C7 amended: holding the description, plugged flag, `secondsRemaining`
and hour fixed, increasing the battery percent never turns a safe
prediction unsafe, provided the description's feature sum
`computeOps/1e9 + memoryMB/1000 + durationSeconds` is non-negative (as for
every physically meaningful description); with a negative feature sum and a
configured threshold above 20, monotonicity can fail at the `percent < 20`
boundary. -/
theorem safe_to_execute_monotone_of_nonneg :
    ∀ (th : ℚ) (hour : ℕ) (d : TaskDescription) (plugged : Bool)
      (tl : Option ℚ) (p1 p2 : ℚ),
      0 ≤ d.compute_ops / 1000000000 + d.memory_mb / 1000 + d.duration_seconds →
      p1 ≤ p2 →
      (predict_drain th hour d (BatteryState.mk p1 plugged tl)).safe_to_execute = true →
      (predict_drain th hour d (BatteryState.mk p2 plugged tl)).safe_to_execute = true := by
  intro th hour d plugged tl p1 p2 hsum hle hsafe
  cases plugged with
  | true => simp [predict_drain, is_safe_to_execute]
  | false =>
    simp only [predict_drain, run_prediction, extract_features,
      is_safe_to_execute] at hsafe ⊢
    simp only [Bool.false_eq_true, if_false] at hsafe ⊢
    have hbase : 0 ≤ (d.compute_ops / 1000000000 + d.memory_mb / 1000 +
        d.duration_seconds) * (1 / 2) := by linarith
    have hscale : (d.compute_ops / 1000000000 + d.memory_mb / 1000 +
        d.duration_seconds) * (1 / 2) ≤
        (d.compute_ops / 1000000000 + d.memory_mb / 1000 +
          d.duration_seconds) * (1 / 2) * (6 / 5) := by linarith
    have hminle := min_le_min hscale (le_refl (10 : ℚ))
    split_ifs at hsafe ⊢ <;> first | rfl | linarith

/-- C7 witness. -/
theorem safe_to_execute_monotone_witness :
    (predict_drain 20 12 (TaskDescription.mk 1000000000 100 1)
      (BatteryState.mk 90 false (some 7200))).safe_to_execute = true :=
  safe_to_execute_monotone_of_nonneg 20 12 (TaskDescription.mk 1000000000 100 1)
    false (some 7200) 80 90 (by norm_num) (by norm_num)
    (by norm_num [predict_drain, run_prediction, extract_features, is_safe_to_execute])

/-! ### Loop invariants -/

/-- `popMin` never fails on a non-empty queue. -/
theorem popMin_cons_isSome (x : ℤ × ℕ) (es : List (ℤ × ℕ)) :
    (popMin (x :: es)).isSome = true := by
  simp only [popMin]
  cases popMin es with
  | none => rfl
  | some m => dsimp only; split <;> rfl

/-- Extracting the minimum permutes the queue: the popped entry together
with the remainder is a rearrangement of the original queue. -/
theorem popMin_perm :
    ∀ {q : List (ℤ × ℕ)} {e : ℤ × ℕ} {rest : List (ℤ × ℕ)},
      popMin q = some (e, rest) → q.Perm (e :: rest) := by
  intro q
  induction q with
  | nil => intro e rest h; simp [popMin] at h
  | cons x es ih =>
    intro e rest h
    simp only [popMin] at h
    cases hm : popMin es with
    | none =>
      rw [hm] at h
      cases h
      cases es with
      | nil => exact List.Perm.refl _
      | cons y ys =>
        have := popMin_cons_isSome y ys
        rw [hm] at this
        simp at this
    | some pr =>
      obtain ⟨m, rest'⟩ := pr
      rw [hm] at h
      dsimp only at h
      by_cases hle : x.1 ≤ m.1
      · rw [if_pos hle] at h
        cases h
        exact List.Perm.refl _
      · rw [if_neg hle] at h
        cases h
        exact ((ih hm).cons x).trans (List.Perm.swap _ _ _)

/-- Occurrence counting across `popMin`. -/
theorem popMin_count {q : List (ℤ × ℕ)} {p : ℤ} {t : ℕ} {rest : List (ℤ × ℕ)}
    (h : popMin q = some ((p, t), rest)) (u : ℕ) :
    (q.map Prod.snd).count u =
      (rest.map Prod.snd).count u + (if u = t then 1 else 0) := by
  have hperm := (popMin_perm h).map Prod.snd
  rw [hperm.count_eq]
  simp only [List.map_cons, List.count_cons]
  rcases eq_or_ne u t with h' | h'
  · simp [h']
  · simp [h', Ne.symm h']

/-- One loop iteration preserves the queue/execution accounting invariant. -/
theorem execInv_step (tasks : ℕ → TaskObj) (inp : LoopInput) (st : SchedState)
    (h : ExecInv st) : ExecInv (schedulerStep tasks inp st) := by
  intro u
  unfold schedulerStep
  cases hp : popMin st.queue with
  | none => exact h u
  | some pr =>
    obtain ⟨⟨p, t⟩, rest⟩ := pr
    have hc := popMin_count hp u
    have hq := h u
    dsimp only
    split_ifs with h1 h2
    all_goals dsimp only
    · by_cases htu : u = t
      · subst htu
        simp at hc ⊢
        omega
      · simp [htu] at hc ⊢
        omega
    · simp only [List.map_append, List.count_append]
      by_cases htu : u = t
      · subst htu
        simp at hc ⊢
        omega
      · simp [htu] at hc ⊢
        omega
    · by_cases htu : u = t
      · subst htu
        simp at hc
        omega
      · simp [htu] at hc
        omega

/-- The accounting invariant holds in every reachable state. -/
theorem execInv_reachable (tasks : ℕ → TaskObj) (st0 st : SchedState)
    (h0 : ExecInv st0) (hr : SchedReachable tasks st0 st) : ExecInv st := by
  induction hr with
  | refl => exact h0
  | tail _ hstep ih =>
    obtain ⟨inp, rfl⟩ := hstep
    exact execInv_step _ _ _ ih

/-- C8: starting from any state in which each task object occurs in at most
one queue entry and has not been executed more often than once minus its
queue occurrences (in particular, the state produced by any sequence of
`submit` calls: one fresh queue entry per task, nothing executed yet), every
state the scheduler loop can reach has invoked each task's `fn` at most
once, no matter how often tasks are deferred and re-enqueued. -/
theorem task_fn_invoked_at_most_once :
    ∀ (tasks : ℕ → TaskObj) (st0 st : SchedState),
      ExecInv st0 → SchedReachable tasks st0 st →
      ∀ t : ℕ, st.execCount t ≤ 1 := by
  intro tasks st0 st h0 hr t
  have := execInv_reachable tasks st0 st h0 hr t
  omega

/-- A concrete environment: every task reference admitted. -/
def tasksAdmit : ℕ → TaskObj := fun _ =>
  { id := "task_1700000000000", funcRef := 1, priority := 45,
    should_execute := true, reason := "All checks passed" }

/-- A concrete environment: every task reference denied at Low tier. -/
def tasksDeny : ℕ → TaskObj := fun _ =>
  { id := "task_1700000000000", funcRef := 1, priority := 100,
    should_execute := false, reason := "Battery below threshold" }

/-- A one-task initial state with queue key 45. -/
def stOne45 : SchedState :=
  { queue := [(45, 0)], execCount := fun _ => 0, history := [] }

/-- A one-task initial state with queue key 100. -/
def stOne100 : SchedState :=
  { queue := [(100, 0)], execCount := fun _ => 0, history := [] }

/-- C8 witness. -/
theorem task_fn_invoked_at_most_once_witness :
    (schedulerStep tasksAdmit (LoopInput.mk false (some 80) (some 79)) stOne45).execCount 0 ≤ 1 :=
  task_fn_invoked_at_most_once tasksAdmit stOne45 _
    (by
      intro t
      cases t with
      | zero => decide
      | succ n => simp [stOne45, List.count_cons])
    (Relation.ReflTransGen.single ⟨LoopInput.mk false (some 80) (some 79), rfl⟩) 0

/-- C9 counterexample: both battery readings are available but the reading
after execution is `0.0`, which is falsy in Python, so the recorded drain is
0 instead of the claimed `before − after = 50`. -/
theorem drain_zero_when_after_reads_zero :
    pyDrain (some 50) (some 0) = 0 ∧ (50 : ℚ) - 0 ≠ 0 := by
  constructor
  · simp [pyDrain, truthyOpt]
  · norm_num

/-- C9 amended: when the dequeued task is admitted and its body raises, the
exception is swallowed at the loop boundary: the loop state update is
identical to a successful run, the task is consumed from the queue (the loop
continues with the remaining entries), its `fn` invocation is counted, and
`record_actual_drain` records `before − after` when both readings are
available and non-zero, and 0 when either reading is unavailable (or reads
exactly 0, by Python truthiness). -/
theorem failing_task_still_completes :
    ∀ (tasks : ℕ → TaskObj) (inp : LoopInput) (st : SchedState)
      (q : ℤ) (t : ℕ) (rest : List (ℤ × ℕ)),
      popMin st.queue = some ((q, t), rest) →
      (tasks t).should_execute = true →
      inp.fnRaises = true →
      (schedulerStep tasks inp st).queue = rest ∧
      (schedulerStep tasks inp st).history =
        st.history ++ [(t, pyDrain inp.batteryBefore inp.batteryAfter)] ∧
      (schedulerStep tasks inp st).execCount t = st.execCount t + 1 ∧
      schedulerStep tasks inp st =
        schedulerStep tasks (LoopInput.mk false inp.batteryBefore inp.batteryAfter) st ∧
      (∀ b a : ℚ, b ≠ 0 → a ≠ 0 → pyDrain (some b) (some a) = b - a) ∧
      (∀ x : Option ℚ, pyDrain none x = 0 ∧ pyDrain x none = 0) := by
  intro tasks inp st q t rest hpop hexec hfail
  refine ⟨?_, ?_, ?_, ?_, ?_, ?_⟩
  · simp [schedulerStep, hpop, hexec]
  · simp [schedulerStep, hpop, hexec]
  · simp [schedulerStep, hpop, hexec]
  · simp [schedulerStep, hpop, hexec]
  · intro b a hb ha
    simp [pyDrain, truthyOpt, hb, ha]
  · intro x
    constructor
    · simp [pyDrain, truthyOpt]
    · cases x <;> simp [pyDrain, truthyOpt]

/-- C9 witness. -/
theorem failing_task_still_completes_witness :
    (schedulerStep tasksAdmit (LoopInput.mk true (some 50) (some 49)) stOne45).history =
      [] ++ [(0, pyDrain (some 50) (some 49))] :=
  (failing_task_still_completes tasksAdmit
    (LoopInput.mk true (some 50) (some 49)) stOne45 45 0 [] rfl rfl rfl).2.1

/-- C10: the admission decision is stored in the task at `submit` time and
never recomputed — the loop consults only the stored flag — so a task whose
stored `should_execute` flag is false is never executed in any reachable
state, no matter how many defer/re-enqueue cycles happen or how conditions
change meanwhile. -/
theorem denied_task_never_executed :
    ∀ (tasks : ℕ → TaskObj) (st0 st : SchedState) (t : ℕ),
      (tasks t).should_execute = false →
      st0.execCount t = 0 →
      SchedReachable tasks st0 st →
      st.execCount t = 0 := by
  intro tasks st0 st t hden h0 hr
  induction hr with
  | refl => exact h0
  | tail _ hstep ih =>
    obtain ⟨inp, rfl⟩ := hstep
    rename_i b _
    unfold schedulerStep
    cases hp : popMin b.queue with
    | none => exact ih
    | some pr =>
      obtain ⟨⟨p, u⟩, rest⟩ := pr
      dsimp only
      split_ifs with h1 h2
      · by_cases htu : t = u
        · subst htu
          rw [hden] at h1
          simp at h1
        · simp [htu, ih]
      · exact ih
      · exact ih

/-- C10 witness. -/
theorem denied_task_never_executed_witness :
    (schedulerStep tasksDeny (LoopInput.mk false (some 80) (some 79)) stOne100).execCount 0 = 0 :=
  denied_task_never_executed tasksDeny stOne100 _ 0 rfl rfl
    (Relation.ReflTransGen.single ⟨LoopInput.mk false (some 80) (some 79), rfl⟩)

end BatteryScheduler
